import Mathlib

/-!
Verification of the funds-analysis dashboard (`src/funds_analysis_dashboard.py`).

The development shallowly embeds the data model and the data-transforming
parts of the script: cell values, tables, the `load_data` cleaning pipeline
(column-name cleanup, duplicate-name renaming, dropping of all-missing rows
and columns, numeric coercion), the column resolver of `create_dashboard`,
the filter logic, and the aggregation / ratio computations.

Modelling conventions:
- spreadsheet cells are `Value` (a rational number, a string, or missing);
  pandas `NaN` is `Value.missing`;
- a pandas column has numeric dtype exactly when it holds no string cell;
- float special values are modelled by `FloatV`: `fin q` is an ordinary
  number, `nan` models NaN (skipped by pandas sums), `inf` models a
  division of a nonzero number by zero (positive and negative infinity are
  conflated, which is sound here because infinities only ever appear
  squared or multiplied by positive constants);
- Python `str(float)` rendering is abstracted by an exact rational
  rendering (`ratRepr`); no verified statement depends on the rendering.
-/

namespace FundsDashboard

/-- A spreadsheet cell: a numeric value, a string, or a missing value (NaN). -/
inductive Value where
  | num (q : ℚ)
  | str (s : String)
  | missing
deriving DecidableEq, Repr

def Value.isMissing : Value → Bool
  | .missing => true
  | _ => false

def Value.isStr : Value → Bool
  | .str _ => true
  | _ => false

def Value.toNum : Value → Option ℚ
  | .num q => some q
  | _ => none

/-- A dataframe: a list of column names and a list of rows. -/
structure Table where
  cols : List String
  rows : List (List Value)
deriving DecidableEq, Repr

/-- Cell of row `r` in column position `i` (missing when out of range). -/
def cellAt (r : List Value) (i : Nat) : Value := r.getD i Value.missing

/-! ### String helpers (Python `in`, `.lower()`, `.strip()`, `str(int)`) -/

/-- `startsWithL needle hay`: `needle` is an initial segment of `hay`. -/
def startsWithL : List Char → List Char → Bool
  | [], _ => true
  | _ :: _, [] => false
  | a :: as, b :: bs => a = b && startsWithL as bs

/-- `hasSubstr hay needle`: `needle` occurs contiguously inside `hay`. -/
def hasSubstr (hay needle : List Char) : Bool :=
  match hay with
  | [] => needle.isEmpty
  | _ :: t => startsWithL needle hay || hasSubstr t needle

/-- Python `needle in hay` on strings. -/
def strContains (hay needle : String) : Bool := hasSubstr hay.data needle.data

/-- ASCII lowercase of one character (Hebrew characters are unchanged,
as with Python `str.lower` on Hebrew). -/
def lowerChar (c : Char) : Char :=
  if 'A' ≤ c ∧ c ≤ 'Z' then Char.ofNat (c.toNat + 32) else c

/-- Python `str.lower`. -/
def strLower (s : String) : String := ⟨s.data.map lowerChar⟩

def isWS (c : Char) : Bool := c = ' ' || c = '\t' || c = '\n' || c = '\r'

/-- Python `str.strip()`. -/
def pyStrip (s : String) : String :=
  ⟨((s.data.dropWhile isWS).reverse.dropWhile isWS).reverse⟩

/-- The decimal digit character for `n` (for `n ≥ 10` used only via `n % 10`). -/
def digitChar (n : Nat) : Char :=
  match n with
  | 0 => '0' | 1 => '1' | 2 => '2' | 3 => '3' | 4 => '4'
  | 5 => '5' | 6 => '6' | 7 => '7' | 8 => '8' | _ => '9'

/-- Decimal digit list of `n` (most significant first); fuel-driven, called
with fuel `n` which suffices since a number needs at most `n` divisions by 10. -/
def natDigitsAux : Nat → Nat → List Char
  | 0, _ => []
  | fuel + 1, n =>
    if n = 0 then [] else natDigitsAux fuel (n / 10) ++ [digitChar (n % 10)]

/-- Python `str(n)` for a natural number. -/
def natRepr (n : Nat) : String :=
  if n = 0 then "0" else ⟨natDigitsAux n n⟩

/-- Abstraction of Python `str` on a rational (exact rendering). -/
def ratRepr (q : ℚ) : String :=
  (if q < 0 then "-" else "") ++ natRepr q.num.natAbs ++
    (if q.den = 1 then "" else "/" ++ natRepr q.den)

/-- Python `str(x)` on a cell, as used by `astype(str)` and the Israel flag;
pandas renders a missing value as the string `"nan"`. -/
def pyStrOfValue : Value → String
  | .num q => ratRepr q
  | .str s => s
  | .missing => "nan"

/-! ### Numeric parsing (`pd.to_numeric(errors='coerce')` on strings) -/

def digitVal (c : Char) : Option Nat :=
  if c.isDigit then some (c.toNat - 48) else none

def parseDigitsAux : List Char → Nat → Option Nat
  | [], acc => some acc
  | c :: cs, acc =>
    match digitVal c with
    | some d => parseDigitsAux cs (acc * 10 + d)
    | none => none

/-- Parse a nonempty all-digit character list as a natural number. -/
def parseDigits (l : List Char) : Option Nat :=
  if l.isEmpty then none else parseDigitsAux l 0

/-- Split at the first dot: characters before it, and the rest after it. -/
def splitDot : List Char → List Char × Option (List Char)
  | [] => ([], none)
  | c :: cs =>
    if c = '.' then ([], some cs)
    else
      let p := splitDot cs
      (c :: p.1, p.2)

def parseUnsigned (l : List Char) : Option ℚ :=
  match splitDot l with
  | (ip, none) => (parseDigits ip).map (fun n => (n : ℚ))
  | (ip, some fp) =>
    if fp.contains '.' then none
    else
      match parseDigits ip, parseDigits fp with
      | some n, some f => some ((n : ℚ) + (f : ℚ) / ((10 : ℚ) ^ fp.length))
      | _, _ => none

/-- Decimal-literal fragment of Python numeric-string coercion
(optional sign, digits, optional fractional part). -/
def parseNumOpt (s : String) : Option ℚ :=
  match (pyStrip s).data with
  | '-' :: rest => (parseUnsigned rest).map Neg.neg
  | l => parseUnsigned l

/-- `pd.to_numeric(errors='coerce')` on one cell: numbers stay, parseable
strings become numbers, everything else becomes missing. -/
def toNumericValue : Value → Value
  | .num q => .num q
  | .missing => .missing
  | .str s =>
    match parseNumOpt s with
    | some q => .num q
    | none => .missing

/-! ### `load_data`: header cleanup, duplicate renaming, dropna, coercion -/

/-- `df.columns = df.columns.astype(str).str.strip()` followed by replacing
empty names with `Column_i` (source lines 200-203). -/
def cleanCols (cols : List String) : List String :=
  (cols.map pyStrip).enum.map
    (fun ic => if ic.2 = "" then "Column_" ++ natRepr ic.1 else ic.2)

/-- Lookup in the model of the `seen` defaultdict. -/
def lookupCount : List (String × Nat) → String → Option Nat
  | [], _ => none
  | kv :: rest, c => if kv.1 = c then some kv.2 else lookupCount rest c

/-- Assignment `seen[c] = n` in the model of the `seen` defaultdict. -/
def setCount : List (String × Nat) → String → Nat → List (String × Nat)
  | [], c, n => [(c, n)]
  | kv :: rest, c, n =>
    if kv.1 = c then (c, n) :: rest else kv :: setCount rest c n

/-- The renaming loop of `ensure_unique_columns` (source lines 156-165):
a repeated name `col` becomes `col_k` on its `k`-th repetition. -/
def uniquifyAux : List String → List (String × Nat) → List String
  | [], _ => []
  | c :: cs, seen =>
    match lookupCount seen c with
    | some k => (c ++ "_" ++ natRepr (k + 1)) :: uniquifyAux cs (setCount seen c (k + 1))
    | none => c :: uniquifyAux cs (setCount seen c 0)

/-- `ensure_unique_columns` on a header list: renaming runs only when
duplicate names are present (source line 150). -/
def ensure_unique_cols (cols : List String) : List String :=
  if cols.Nodup then cols else uniquifyAux cols []

/-- `ensure_unique_columns` on a table; an empty dataframe is returned
unchanged (source line 145). -/
def ensureUniqueTable (t : Table) : Table :=
  if t.rows.isEmpty || t.cols.isEmpty then t
  else ⟨ensure_unique_cols t.cols, t.rows⟩

/-- A row is kept by `dropna(how='all')` when some cell in the table's
column range is non-missing. -/
def rowNonEmptyB (n : Nat) (r : List Value) : Bool :=
  (List.range n).any (fun j => !(cellAt r j).isMissing)

/-- `df.dropna(how='all').dropna(axis=1, how='all')` (source line 209):
first drop all-missing rows, then drop the columns that are all-missing
over the surviving rows. -/
def dropEmpty (t : Table) : Table :=
  let rows1 := t.rows.filter (rowNonEmptyB t.cols.length)
  let kp := t.cols.enum.filter
    (fun ic => rows1.any (fun r => !(cellAt r ic.1).isMissing))
  ⟨kp.map Prod.snd, rows1.map (fun r => kp.map (fun ic => cellAt r ic.1))⟩

/-- Column-name test selecting the columns coerced by `load_data`
(source line 213). -/
def coerceName (c : String) : Bool :=
  strContains c "NAV" || strContains (strLower c) "nav" ||
    strContains (strLower c) "value" || strContains (strLower c) "amount"

/-- The numeric-coercion loop of `load_data` (source lines 212-217). -/
def coerceNumericCols (t : Table) : Table :=
  ⟨t.cols,
    t.rows.map (fun r =>
      (List.range t.cols.length).map (fun i =>
        if coerceName (t.cols.getD i "") then toNumericValue (cellAt r i)
        else cellAt r i))⟩

/-- `load_data` on an already-decoded sheet: clean the header, make names
unique, drop all-missing rows and columns, then coerce NAV/value/amount
columns to numbers (source lines 198-219). -/
def load_data (cols : List String) (rows : List (List Value)) : Table :=
  coerceNumericCols (dropEmpty (ensureUniqueTable ⟨cleanCols cols, rows⟩))

/-! ### Dashboard: dtypes, stringification, column resolution, selectors -/

/-- Numeric dtype of column position `i`: the column holds no string cell
(pandas gives a homogeneous numeric column a numeric dtype and a column
with any string the object dtype). -/
def isNumericCol (t : Table) (i : Nat) : Bool :=
  (t.rows.map (fun r => cellAt r i)).all (fun v => !v.isStr)

/-- `safely_convert_to_string` (source lines 232-259): every object-dtype
column is converted with `astype(str)`; numeric columns are untouched. -/
def stringifyTable (t : Table) : Table :=
  ⟨t.cols,
    t.rows.map (fun r =>
      (List.range t.cols.length).map (fun i =>
        if isNumericCol t i then cellAt r i
        else .str (pyStrOfValue (cellAt r i))))⟩

/-- Priority 1 of the NAV search (source line 275): a nav synonym together
with an ILS/NIS/shekel marker in the lowercased name. -/
def navP1 (c : String) : Bool :=
  (strContains (strLower c) "nav" || strContains (strLower c) "שווי") &&
    (strContains (strLower c) "ils" || strContains (strLower c) "nis" ||
      strContains (strLower c) "שקל")

/-- Nav synonym in the lowercased name (the name part of priority 2,
source line 283). -/
def navSyn (c : String) : Bool :=
  strContains (strLower c) "nav" || strContains (strLower c) "שווי"

/-- Value/amount synonym in the lowercased name (the name part of
priority 3, source line 291). -/
def valueSyn (c : String) : Bool :=
  strContains (strLower c) "value" || strContains (strLower c) "amount" ||
    strContains (strLower c) "סכום" || strContains (strLower c) "ערך"

/-- `df[col].mean()`: mean of the numeric cells, skipping missing ones;
`none` models NaN (no numeric cell at all). -/
def colMean (t : Table) (i : Nat) : Option ℚ :=
  let vs := t.rows.filterMap (fun r => (cellAt r i).toNum)
  if vs.length = 0 then none else some (vs.sum / (vs.length : ℚ))

/-- `df[col].mean() > 1000` (source line 300); NaN compares false. -/
def meanGT1000 (t : Table) (i : Nat) : Bool :=
  match colMean t i with
  | some m => decide (1000 < m)
  | none => false

/-- The four sequential NAV-detection loops of `create_dashboard`
(source lines 271-302); each loop takes the first matching column. -/
def findNavColumn (t : Table) : Option String :=
  match t.cols.enum.find? (fun ic => navP1 ic.2) with
  | some ic => some ic.2
  | none =>
    match t.cols.enum.find? (fun ic => navSyn ic.2 && isNumericCol t ic.1) with
    | some ic => some ic.2
    | none =>
      match t.cols.enum.find? (fun ic => valueSyn ic.2 && isNumericCol t ic.1) with
      | some ic => some ic.2
      | none =>
        match t.cols.enum.find? (fun ic => isNumericCol t ic.1 && meanGT1000 t ic.1) with
        | some ic => some ic.2
        | none => none

/-- Geography-column detection (source lines 305-309). -/
def findGeographyColumn (t : Table) : Option String :=
  (t.cols.find? (fun c =>
    strContains (strLower c) "country" || strContains (strLower c) "geography" ||
      strContains (strLower c) "region" || strContains (strLower c) "מדינה" ||
      strContains (strLower c) "אזור"))

/-- Modelled from the spec (claim C3 wording only, for comparison): the
numeric column of largest mean; ties keep the earlier column. This is what
the claim calls the "largest-mean numeric column" fallback; it is not part
of the source. -/
def specLargestMeanNumericCol (t : Table) : Option String :=
  (t.cols.enum.filter (fun ic => isNumericCol t ic.1 && (colMean t ic.1).isSome)).foldl
    (fun best ic =>
      match best with
      | none => some ic
      | some b =>
        if (colMean t b.1).getD 0 < (colMean t ic.1).getD 0 then some ic else some b)
    none
  |>.map Prod.snd

/-- Names of the numeric-dtype columns, in column order (source line 378). -/
def numericColNames (t : Table) : List String :=
  (t.cols.enum.filter (fun ic => isNumericCol t ic.1)).map Prod.snd

/-- Options of the NAV override selectbox (source lines 388-392): only the
numeric columns. -/
def navSelectorOptions (t : Table) : List String := numericColNames t

/-- Default index of the NAV override selectbox (source lines 384-386). -/
def navSelectorDefault (t : Table) : Nat :=
  match findNavColumn t with
  | some c => if c ∈ numericColNames t then (numericColNames t).findIdx (· = c) else 0
  | none => 0

/-- Options of the geography/strategy/characteristic override selectboxes
(source lines 399-425): the full column list. -/
def roleSelectorOptions (t : Table) : List String := t.cols

/-- Default index of the geography override selectbox (source lines
395-397, `df.columns.get_loc`). -/
def geoSelectorDefault (t : Table) : Nat :=
  match findGeographyColumn t with
  | some c => if c ∈ t.cols then t.cols.findIdx (· = c) else 0
  | none => 0

/-! ### Filtering (source lines 466-495) -/

/-- `df[col].isin(selection)` on one cell: a string cell matches when it is
in the selection; numeric and missing cells never match a string selection. -/
def rowMatches (r : List Value) (i : Nat) (sel : List String) : Bool :=
  match cellAt r i with
  | .str s => sel.contains s
  | _ => false

/-- One `if selected and 'All' not in selected: filtered = filtered[...isin...]`
step (source lines 470-471). -/
def applyRoleFilter (t : Table) (i : Nat) (sel : List String) : Table :=
  if !sel.isEmpty && !sel.contains "All" then
    ⟨t.cols, t.rows.filter (fun r => rowMatches r i sel)⟩
  else t

/-- The three sequential filters of `create_dashboard` starting from
`df.copy()` (source lines 466-486). -/
def applyFilters (t : Table) (gi si ci : Nat) (g s c : List String) : Table :=
  applyRoleFilter (applyRoleFilter (applyRoleFilter t gi g) si s) ci c

/-- The empty-result fallback (source lines 491-495): when the filtered
dataframe is empty, warn and reset to a copy of the input; the Bool is the
warning flag. -/
def filteredWithFallback (t : Table) (gi si ci : Nat) (g s c : List String) :
    Table × Bool :=
  let f := applyFilters t gi si ci g s c
  if f.rows.isEmpty || f.cols.isEmpty then (t, true) else (f, false)

/-! ### Aggregation and ratios -/

/-- `series.sum()` over the nav column of a row list, skipping missing
values (pandas skipna sum). -/
def sumNavRows (rows : List (List Value)) (ni : Nat) : ℚ :=
  (rows.filterMap (fun r => (cellAt r ni).toNum)).sum

/-- `filtered_df[nav_column].sum()` (source line 498). -/
def totalNav (t : Table) (ni : Nat) : ℚ := sumNavRows t.rows ni

/-- `len(filtered_df)` (source line 499). -/
def totalInvestments (t : Table) : Nat := t.rows.length

/-- `total_nav / total_investments if total_investments > 0 else 0`
(source line 524). -/
def avgInvestment (t : Table) (ni : Nat) : ℚ :=
  if 0 < totalInvestments t then totalNav t ni / (totalInvestments t : ℚ) else 0

/-- Ordering used by pandas on group keys (string order on strings; the
numeric-before-string choice is arbitrary since pandas raises on mixed-type
keys, which this model totalises instead). -/
def valueLE (a b : Value) : Bool :=
  match a, b with
  | .num x, .num y => decide (x ≤ y)
  | .num _, _ => true
  | .str x, .str y => decide (x ≤ y)
  | .str _, .num _ => false
  | .str _, .missing => true
  | .missing, .missing => true
  | .missing, _ => false

def insertValAsc (v : Value) : List Value → List Value
  | [] => [v]
  | w :: ws => if valueLE v w then v :: w :: ws else w :: insertValAsc v ws

def sortValsAsc (l : List Value) : List Value := l.foldr insertValAsc []

/-- The distinct non-missing values of the category column, in the sorted
order produced by `groupby` (pandas sorts group keys). -/
def groupKeys (t : Table) (ci : Nat) : List Value :=
  sortValsAsc ((t.rows.filterMap (fun r =>
    let v := cellAt r ci
    if v.isMissing then none else some v)).dedup)

/-- The rows of one group. -/
def catRows (t : Table) (ci : Nat) (k : Value) : List (List Value) :=
  t.rows.filter (fun r => cellAt r ci = k)

/-- `groupby(cat)[nav].sum()` for one group (source lines 539, 600, 662). -/
def catSum (t : Table) (ci ni : Nat) (k : Value) : ℚ :=
  sumNavRows (catRows t ci k) ni

/-- `groupby(cat).size()` for one group (source line 666): counts every
row of the group, whatever its nav cell holds. -/
def catCount (t : Table) (ci : Nat) (k : Value) : Nat := (catRows t ci k).length

/-- The `groupby(cat)[nav].sum().reset_index()` result. -/
def groupPairs (t : Table) (ci ni : Nat) : List (Value × ℚ) :=
  (groupKeys t ci).map (fun k => (k, catSum t ci ni k))

def insertDescBySum (p : Value × ℚ) : List (Value × ℚ) → List (Value × ℚ)
  | [] => [p]
  | q :: qs => if q.2 < p.2 then p :: q :: qs else q :: insertDescBySum p qs

def sortDescBySum (l : List (Value × ℚ)) : List (Value × ℚ) :=
  l.foldr insertDescBySum []

/-- `geo_data` / `strategy_data` / `char_data`: group sums sorted
descending by summed nav (source lines 539-540, 600-601, 662-663). -/
def navGroups (t : Table) (ci ni : Nat) : List (Value × ℚ) :=
  sortDescBySum (groupPairs t ci ni)

/-- Float results: an ordinary number, NaN, or an infinity (sign
conflated; see the file header). -/
inductive FloatV where
  | fin (q : ℚ)
  | nan
  | inf
deriving DecidableEq, Repr

/-- Float division `a / b`: `0 / 0` is NaN, `a / 0` with `a ≠ 0` is an
infinity, otherwise exact. -/
def divF (a b : ℚ) : FloatV :=
  if b = 0 then (if a = 0 then .nan else .inf) else .fin (a / b)

/-- Multiplication of a float result by a positive rational constant. -/
def mulF (v : FloatV) (c : ℚ) : FloatV :=
  match v with
  | .fin a => .fin (a * c)
  | .nan => .nan
  | .inf => .inf

/-- Squaring a float result. -/
def sqF (v : FloatV) : FloatV :=
  match v with
  | .fin a => .fin (a * a)
  | .nan => .nan
  | .inf => .inf

/-- pandas `Series.sum()` with default `skipna=True`: NaN entries are
skipped (an all-NaN series sums to 0), infinities propagate. -/
def sumSkipNaN (l : List FloatV) : FloatV :=
  l.foldr
    (fun v acc =>
      match v, acc with
      | .nan, a => a
      | .fin a, .fin b => .fin (a + b)
      | .fin _, x => x
      | .inf, _ => .inf)
    (.fin 0)

/-- `(geo_data.iloc[0][nav_column] / total_nav) * 100` (source line 586):
no guard on an empty grouping (`none` models the `iloc[0]` IndexError) and
no guard on a zero total (NaN/Inf). -/
def topGeographyPct (t : Table) (ci ni : Nat) : Option FloatV :=
  match navGroups t ci ni with
  | [] => none
  | p :: _ => some (mulF (divF p.2 (totalNav t ni)) 100)

/-- The guarded top-share computation used for strategy and characteristic
(source lines 646-647 and 757-758): 0 when the grouping is empty or the
total is not positive. -/
def topStrategyPct (t : Table) (ci ni : Nat) : ℚ :=
  match navGroups t ci ni with
  | [] => 0
  | p :: _ =>
    if 0 < totalNav t ni then p.2 / totalNav t ni * 100 else 0

/-- The `'% of Total NAV'` column (source line 722):
`merged_data[nav_column] / total_nav * 100` entry by entry. -/
def pctOfTotalList (t : Table) (ci ni : Nat) : List FloatV :=
  (navGroups t ci ni).map (fun p => mulF (divF p.2 (totalNav t ni)) 100)

/-- The geography HHI (source line 1076):
`((geo_data[nav]/total)**2).sum() * 10000 if len(geo_data) > 0 else 0`. -/
def geoHHI (t : Table) (ci ni : Nat) : FloatV :=
  if (navGroups t ci ni).length = 0 then .fin 0
  else
    mulF (sumSkipNaN ((navGroups t ci ni).map
      (fun p => sqF (divF p.2 (totalNav t ni))))) 10000

/-! ### The dashboard pass as a state transformer on the input table -/

/-- The Israel/International tag (source line 955). -/
def israelFlag (v : Value) : Value :=
  .str (if strLower (pyStrOfValue v) ∈ ["israel", "ישראל", "isr", "il"]
    then "Israel" else "International")

/-- `df['Israel_Flag'] = df[geography_column].apply(...)` (source lines
954-955): appends a column to the table in place. -/
def addIsraelFlag (t : Table) (geoName : String) : Table :=
  let gi := t.cols.findIdx (· = geoName)
  ⟨t.cols ++ ["Israel_Flag"],
    t.rows.map (fun r => r ++ [israelFlag (cellAt r gi)])⟩

/-- Net effect of one `create_dashboard` pass on the state of the input
table `df`: object columns are stringified in place (line 259) and the
`Israel_Flag` column is appended (line 955). (The year-analysis branch may
additionally append an `Investment_Year` column; it is not modelled, which
only understates the mutation.) -/
def dashboardDf (t : Table) (geoName : String) : Table :=
  addIsraelFlag (stringifyTable t) geoName

/-- Appending one row to a table (used to state how one extra row changes
the aggregates). -/
def addRow (t : Table) (r : List Value) : Table := ⟨t.cols, t.rows ++ [r]⟩

/-! ## Claim C4 -/

/-- C4 (code_bug evaluation): on the failing header list
`["NAV", "NAV_1", "NAV"]` the loaded table's column names are
`["NAV", "NAV_1", "NAV_1"]` — the second repetition of `NAV` is renamed to
`NAV_1`, which collides with the pre-existing `NAV_1`, so the names are not
pairwise distinct, contradicting both the claim and the docstring of
`ensure_unique_columns`. -/
theorem duplicate_rename_collision_eval :
    (load_data ["NAV", "NAV_1", "NAV"] [[.num 1, .num 2, .num 3]]).cols
        = ["NAV", "NAV_1", "NAV_1"] ∧
    ¬ (load_data ["NAV", "NAV_1", "NAV"] [[.num 1, .num 2, .num 3]]).cols.Nodup := by
  decide

/-! ## Claim C8 -/

/-- C8: filtering with a selection that is empty or contains `"All"` on
every role returns the input table unchanged — same rows, same order; in
particular the all-`["All"]` selection is the identity. -/
theorem filter_all_identity (t : Table) (gi si ci : Nat) (g s c : List String)
    (hg : g = [] ∨ "All" ∈ g) (hs : s = [] ∨ "All" ∈ s) (hc : c = [] ∨ "All" ∈ c) :
    applyFilters t gi si ci g s c = t := by
  have key : ∀ (u : Table) (i : Nat) (sel : List String),
      sel = [] ∨ "All" ∈ sel → applyRoleFilter u i sel = u := by
    intro u i sel h
    rcases h with h | h
    · subst h; simp [applyRoleFilter]
    · simp [applyRoleFilter, h]
  unfold applyFilters
  rw [key t gi g hg, key t si s hs, key t ci c hc]

/-- C8 witness: the identity law at a concrete one-row table with the
`["All"]` selection on every role. -/
theorem filter_all_identity_witness :
    applyFilters ⟨["Geo"], [[.str "x"]]⟩ 0 0 0 ["All"] ["All"] ["All"]
      = ⟨["Geo"], [[.str "x"]]⟩ :=
  filter_all_identity _ 0 0 0 _ _ _ (Or.inr (by decide)) (Or.inr (by decide))
    (Or.inr (by decide))

/-! ## Claim C9 -/

/-- C9: whenever the applied filters exclude every row, the dashboard falls
back to the full input table and raises the warning flag. -/
theorem empty_filter_fallback (t : Table) (gi si ci : Nat) (g s c : List String)
    (h : (applyFilters t gi si ci g s c).rows = []) :
    filteredWithFallback t gi si ci g s c = (t, true) := by
  unfold filteredWithFallback
  simp [h]

/-- C9 witness: a concrete table and selection excluding every row. -/
theorem empty_filter_fallback_witness :
    filteredWithFallback ⟨["Geo"], [[.str "Israel"]]⟩ 0 0 0 ["US"] ["All"] ["All"]
      = (⟨["Geo"], [[.str "Israel"]]⟩, true) :=
  empty_filter_fallback _ 0 0 0 _ _ _ (by decide)

/-! ## Claim C7 -/

/-- C7 (counterexample): a full dashboard pass does not leave the input
table unchanged — on a concrete table the pass appends the `Israel_Flag`
column, so the final state of `df` differs from the input. -/
theorem dashboard_pass_mutates_input :
    dashboardDf ⟨["Geography", "NAV"], [[.str "US", .num 7]]⟩ "Geography"
      ≠ ⟨["Geography", "NAV"], [[.str "US", .num 7]]⟩ := by
  decide

/-- C7 (amended): filtering itself is pure — the filtered table's rows are
a sublist of the input rows and its column list is unchanged — but the
dashboard pass mutates the input table: it keeps the row count and the
original columns as a prefix while appending the `Israel_Flag` column (and
stringifying object columns in place). -/
theorem filter_pure_pass_appends_flag (t : Table) (gi si ci : Nat)
    (g s c : List String) (geoName : String) :
    (applyFilters t gi si ci g s c).rows.Sublist t.rows ∧
    (applyFilters t gi si ci g s c).cols = t.cols ∧
    (dashboardDf t geoName).rows.length = t.rows.length ∧
    (dashboardDf t geoName).cols = t.cols ++ ["Israel_Flag"] := by
  have key : ∀ (u : Table) (i : Nat) (sel : List String),
      (applyRoleFilter u i sel).rows.Sublist u.rows ∧
        (applyRoleFilter u i sel).cols = u.cols := by
    intro u i sel
    unfold applyRoleFilter
    split
    · exact ⟨List.filter_sublist _, rfl⟩
    · exact ⟨List.Sublist.refl _, rfl⟩
  refine ⟨?_, ?_, ?_, ?_⟩
  · exact ((key _ ci c).1.trans ((key _ si s).1.trans (key t gi g).1))
  · rw [applyFilters, (key _ ci c).2, (key _ si s).2, (key t gi g).2]
  · simp [dashboardDf, addIsraelFlag, stringifyTable]
  · simp [dashboardDf, addIsraelFlag, stringifyTable]

/-! ## Claim C1 -/

/-- C1 (counterexample): on a loaded table with one non-coercible nav cell
(`"abc"`, coerced to missing) and one numeric nav cell, the summed nav is 5
(one row contributes) but `len(filtered_df)` is 2 and the per-category
`size()` count is 2 — the row counts include the row whose nav did not
coerce, so they are not restricted to rows with a coerced nav value. -/
theorem counts_include_noncoercible_nav :
    totalInvestments (load_data ["NAV", "Cat"] [[.str "abc", .str "X"], [.num 5, .str "X"]]) = 2 ∧
    catCount (load_data ["NAV", "Cat"] [[.str "abc", .str "X"], [.num 5, .str "X"]])
      1 (.str "X") = 2 ∧
    ((load_data ["NAV", "Cat"] [[.str "abc", .str "X"], [.num 5, .str "X"]]).rows.filter
      (fun r => ((cellAt r 0).toNum).isSome)).length = 1 ∧
    totalNav (load_data ["NAV", "Cat"] [[.str "abc", .str "X"], [.num 5, .str "X"]]) 0 = 5 := by
  refine ⟨by decide, by decide, by decide, ?_⟩
  have h : (load_data ["NAV", "Cat"] [[.str "abc", .str "X"], [.num 5, .str "X"]]).rows
      = [[.missing, .str "X"], [.num 5, .str "X"]] := by decide
  rw [totalNav, sumNavRows, h]
  norm_num [cellAt, Value.toNum, List.filterMap_cons, List.filterMap_nil]

/-- C1 (amended): a row whose nav value does not coerce to a number is
excluded from the summed nav (total and per-category) but included in the
row counts: appending such a row leaves `totalNav` and the category's
summed nav unchanged while incrementing `len(filtered_df)` and the
category's `size()` count by one. -/
theorem missing_nav_row_excluded_from_sum_not_count (t : Table) (ni ci : Nat)
    (r : List Value) (k : Value)
    (hnav : (cellAt r ni).toNum = none) (hcat : cellAt r ci = k) :
    totalNav (addRow t r) ni = totalNav t ni ∧
    totalInvestments (addRow t r) = totalInvestments t + 1 ∧
    catSum (addRow t r) ci ni k = catSum t ci ni k ∧
    catCount (addRow t r) ci k = catCount t ci k + 1 := by
  refine ⟨?_, ?_, ?_, ?_⟩
  · simp [totalNav, sumNavRows, addRow, List.filterMap_append, hnav]
  · simp [totalInvestments, addRow]
  · simp [catSum, catRows, sumNavRows, addRow, List.filter_append, hcat,
      List.filterMap_append, hnav]
  · simp [catCount, catRows, addRow, List.filter_append, hcat]

/-- C1 witness: the amended statement at a concrete one-row table extended
with a missing-nav row of the same category. -/
theorem missing_nav_row_witness :
    totalNav (addRow ⟨["NAV", "Cat"], [[.num 5, .str "X"]]⟩ [.missing, .str "X"]) 0
        = totalNav ⟨["NAV", "Cat"], [[.num 5, .str "X"]]⟩ 0 ∧
    totalInvestments (addRow ⟨["NAV", "Cat"], [[.num 5, .str "X"]]⟩ [.missing, .str "X"])
        = totalInvestments ⟨["NAV", "Cat"], [[.num 5, .str "X"]]⟩ + 1 ∧
    catSum (addRow ⟨["NAV", "Cat"], [[.num 5, .str "X"]]⟩ [.missing, .str "X"]) 1 0 (.str "X")
        = catSum ⟨["NAV", "Cat"], [[.num 5, .str "X"]]⟩ 1 0 (.str "X") ∧
    catCount (addRow ⟨["NAV", "Cat"], [[.num 5, .str "X"]]⟩ [.missing, .str "X"]) 1 (.str "X")
        = catCount ⟨["NAV", "Cat"], [[.num 5, .str "X"]]⟩ 1 (.str "X") + 1 :=
  missing_nav_row_excluded_from_sum_not_count _ 0 1 _ _ (by decide) (by decide)

/-! ## Claim C5 -/

/-- C5 (counterexample): on a table with a non-numeric `Geo` column the NAV
override selectbox is populated with `["NAV"]`, the numeric columns only —
not with the full column list `["Geo", "NAV"]` as the claim states. -/
theorem nav_selector_not_full_column_list :
    navSelectorOptions ⟨["Geo", "NAV"], [[.str "Israel", .num 5]]⟩ = ["NAV"] ∧
    roleSelectorOptions ⟨["Geo", "NAV"], [[.str "Israel", .num 5]]⟩ = ["Geo", "NAV"] ∧
    navSelectorOptions ⟨["Geo", "NAV"], [[.str "Israel", .num 5]]⟩
      ≠ roleSelectorOptions ⟨["Geo", "NAV"], [[.str "Israel", .num 5]]⟩ := by
  decide

/-- An element is recovered at its `findIdx` position. -/
theorem getD_findIdx_eq {l : List String} {a : String} (h : a ∈ l) (d : String) :
    l.getD (l.findIdx (fun x => x = a)) d = a := by
  induction l with
  | nil => cases h
  | cons b bs ih =>
    by_cases hb : b = a
    · subst hb; simp [List.findIdx_cons]
    · have hmem : a ∈ bs := by
        rcases List.mem_cons.mp h with h1 | h1
        · exact absurd h1.symm hb
        · exact h1
      simp [List.findIdx_cons, hb]
      simpa using ih hmem

/-- C5 (amended): the geography/strategy/characteristic override selectors
are populated with the full column list, while the NAV override selector is
populated only with the numeric columns; each selector defaults to the
detected column whenever that column is among its options (and to the
first option otherwise). -/
theorem selector_options_and_defaults (t : Table) :
    roleSelectorOptions t = t.cols ∧
    navSelectorOptions t = numericColNames t ∧
    (∀ cname, findNavColumn t = some cname → cname ∈ numericColNames t →
      (navSelectorOptions t).getD (navSelectorDefault t) "" = cname) ∧
    (∀ cname, findGeographyColumn t = some cname → cname ∈ t.cols →
      (roleSelectorOptions t).getD (geoSelectorDefault t) "" = cname) := by
  refine ⟨rfl, rfl, ?_, ?_⟩
  · intro cname hfind hmem
    simp only [navSelectorOptions, navSelectorDefault, hfind]
    rw [if_pos hmem]
    exact getD_findIdx_eq hmem ""
  · intro cname hfind hmem
    simp only [roleSelectorOptions, geoSelectorDefault, hfind]
    rw [if_pos hmem]
    exact getD_findIdx_eq hmem ""

/-- C5 witness: on a concrete table both the detected NAV column and the
detected geography column are recovered at the selectors' default indices. -/
theorem selector_options_witness :
    (navSelectorOptions ⟨["NAV (ILS)", "Geography"], [[.num 5, .str "IL"]]⟩).getD
        (navSelectorDefault ⟨["NAV (ILS)", "Geography"], [[.num 5, .str "IL"]]⟩) ""
      = "NAV (ILS)" ∧
    (roleSelectorOptions ⟨["NAV (ILS)", "Geography"], [[.num 5, .str "IL"]]⟩).getD
        (geoSelectorDefault ⟨["NAV (ILS)", "Geography"], [[.num 5, .str "IL"]]⟩) ""
      = "Geography" :=
  ⟨(selector_options_and_defaults _).2.2.1 "NAV (ILS)" (by decide) (by decide),
   (selector_options_and_defaults _).2.2.2 "Geography" (by decide) (by decide)⟩

/-! ## Claim C2 -/

/-- C2 (counterexample): on a table whose single row has nav 0, the grand
total is 0 and the top-geography percentage (source line 586) is NaN
(`0 / 0 * 100`) rather than the claimed defined 0. -/
theorem zero_total_top_geography_pct_not_zero :
    totalNav ⟨["Geo", "NAV"], [[.str "Israel", .num 0]]⟩ 1 = 0 ∧
    topGeographyPct ⟨["Geo", "NAV"], [[.str "Israel", .num 0]]⟩ 0 1 = some .nan := by
  constructor
  · norm_num [totalNav, sumNavRows, cellAt, Value.toNum,
      List.filterMap_cons, List.filterMap_nil]
  · have hg : groupKeys ⟨["Geo", "NAV"], [[.str "Israel", .num 0]]⟩ 0 = [.str "Israel"] := by
      decide
    norm_num [topGeographyPct, navGroups, groupPairs, hg, sortDescBySum, insertDescBySum,
      catSum, catRows, sumNavRows, totalNav, cellAt, Value.toNum, divF, mulF,
      List.filterMap_cons, List.filterMap_nil, List.filter_cons, List.filter_nil]

/-- C2 (amended): when the grand total is 0, the guarded ratios return 0 —
the average investment size (count guard, line 524) and the top
strategy/characteristic percentage (emptiness and positivity guard, lines
646-647 and 757-758) — and with an empty grouping the HHI returns 0 and
the top-geography lookup raises (modelled `none`); but the top-geography
percentage itself is never a defined number when the total is 0: it is
NaN/Inf for a nonempty grouping instead of the claimed 0. -/
theorem zero_total_guarded_ratios (t : Table) (gi si ni : Nat)
    (h : totalNav t ni = 0) :
    avgInvestment t ni = 0 ∧
    topStrategyPct t si ni = 0 ∧
    (∀ q : ℚ, topGeographyPct t gi ni ≠ some (.fin q)) ∧
    (navGroups t gi ni = [] →
      topGeographyPct t gi ni = none ∧ geoHHI t gi ni = .fin 0) := by
  refine ⟨?_, ?_, ?_, ?_⟩
  · simp [avgInvestment, h]
  · cases hng : navGroups t si ni with
    | nil => simp [topStrategyPct, hng]
    | cons p l => simp [topStrategyPct, hng, h]
  · intro q
    cases hng : navGroups t gi ni with
    | nil => simp [topGeographyPct, hng]
    | cons p l =>
      simp only [topGeographyPct, hng, h, divF, mulF]
      by_cases hp : p.2 = 0 <;> simp [hp]
  · intro hng
    constructor
    · simp [topGeographyPct, hng]
    · simp [geoHHI, hng]

/-- C2 witness: the guarded ratios evaluate to 0 on the concrete
zero-total table. -/
theorem zero_total_guarded_ratios_witness :
    avgInvestment ⟨["Geo", "NAV"], [[.str "Israel", .num 0]]⟩ 1 = 0 ∧
    topStrategyPct ⟨["Geo", "NAV"], [[.str "Israel", .num 0]]⟩ 0 1 = 0 := by
  have h : totalNav ⟨["Geo", "NAV"], [[.str "Israel", .num 0]]⟩ 1 = 0 := by
    norm_num [totalNav, sumNavRows, cellAt, Value.toNum,
      List.filterMap_cons, List.filterMap_nil]
  exact ⟨(zero_total_guarded_ratios _ 0 0 1 h).1,
    (zero_total_guarded_ratios _ 0 0 1 h).2.1⟩

/-! ## Claim C3 -/

/-- C3 (counterexample): with two keyword-free numeric columns of means
2000 and 5000, the code's last-resort rule picks `"A"` — the first numeric
column whose mean exceeds 1000 — while the claimed largest-mean rule would
pick `"B"`. -/
theorem nav_fallback_not_largest_mean :
    findNavColumn ⟨["A", "B"], [[.num 2000, .num 5000]]⟩ = some "A" ∧
    specLargestMeanNumericCol ⟨["A", "B"], [[.num 2000, .num 5000]]⟩ = some "B" ∧
    ("A" : String) ≠ "B" := by
  refine ⟨?_, ?_, by decide⟩
  · have h1 : (⟨["A", "B"], [[.num 2000, .num 5000]]⟩ : Table).cols.enum.find?
        (fun ic => navP1 ic.2) = none := by decide
    have h2 : (⟨["A", "B"], [[.num 2000, .num 5000]]⟩ : Table).cols.enum.find?
        (fun ic => navSyn ic.2 &&
          isNumericCol ⟨["A", "B"], [[.num 2000, .num 5000]]⟩ ic.1) = none := by decide
    have h3 : (⟨["A", "B"], [[.num 2000, .num 5000]]⟩ : Table).cols.enum.find?
        (fun ic => valueSyn ic.2 &&
          isNumericCol ⟨["A", "B"], [[.num 2000, .num 5000]]⟩ ic.1) = none := by decide
    have hm0 : colMean ⟨["A", "B"], [[.num 2000, .num 5000]]⟩ 0 = some 2000 := by
      norm_num [colMean, cellAt, Value.toNum, List.filterMap_cons, List.filterMap_nil]
    rw [findNavColumn, h1, h2, h3]
    norm_num [List.find?, isNumericCol, cellAt, meanGT1000, hm0, Value.isStr,
      List.map_cons, List.map_nil]
  · have hm0 : colMean ⟨["A", "B"], [[.num 2000, .num 5000]]⟩ 0 = some 2000 := by
      norm_num [colMean, cellAt, Value.toNum, List.filterMap_cons, List.filterMap_nil]
    have hm1 : colMean ⟨["A", "B"], [[.num 2000, .num 5000]]⟩ 1 = some 5000 := by
      norm_num [colMean, cellAt, Value.toNum, List.filterMap_cons, List.filterMap_nil]
    norm_num [specLargestMeanNumericCol, isNumericCol, cellAt, hm0, hm1, Value.isStr,
      List.enum, List.enumFrom, List.filter_cons, List.filter_nil, List.foldl_cons,
      List.foldl_nil, List.map_cons, List.map_nil]

/-- C3 (amended): NAV detection follows the priority order (1) nav synonym
with an ILS/NIS marker, (2) numeric column with a nav synonym, (3) numeric
value/amount column, (4) — for nav only — the first numeric column whose
mean exceeds 1000 (not the largest-mean column); when no rule applies the
role is left unmapped. Each clause states that if some column satisfies a
rule, the detection returns a column satisfying that rule or an earlier
one; the last clause states that with no satisfying column the result is
`none`. -/
theorem nav_resolution_priority (t : Table) :
    ((∃ ic ∈ t.cols.enum, navP1 ic.2 = true) →
      ∃ ic ∈ t.cols.enum, navP1 ic.2 = true ∧ findNavColumn t = some ic.2) ∧
    ((∃ ic ∈ t.cols.enum, (navSyn ic.2 && isNumericCol t ic.1) = true) →
      ∃ ic ∈ t.cols.enum,
        (navP1 ic.2 = true ∨ (navSyn ic.2 && isNumericCol t ic.1) = true) ∧
        findNavColumn t = some ic.2) ∧
    ((∃ ic ∈ t.cols.enum, (valueSyn ic.2 && isNumericCol t ic.1) = true) →
      ∃ ic ∈ t.cols.enum,
        (navP1 ic.2 = true ∨ (navSyn ic.2 && isNumericCol t ic.1) = true ∨
          (valueSyn ic.2 && isNumericCol t ic.1) = true) ∧
        findNavColumn t = some ic.2) ∧
    ((∃ ic ∈ t.cols.enum, (isNumericCol t ic.1 && meanGT1000 t ic.1) = true) →
      ∃ ic ∈ t.cols.enum, findNavColumn t = some ic.2) ∧
    ((∀ ic ∈ t.cols.enum, navP1 ic.2 = false ∧
        (navSyn ic.2 && isNumericCol t ic.1) = false ∧
        (valueSyn ic.2 && isNumericCol t ic.1) = false ∧
        (isNumericCol t ic.1 && meanGT1000 t ic.1) = false) →
      findNavColumn t = none) := by
  refine ⟨?_, ?_, ?_, ?_, ?_⟩
  · intro hex
    obtain ⟨jc, hfind⟩ := Option.isSome_iff_exists.mp (List.find?_isSome.mpr hex)
    exact ⟨jc, List.mem_of_find?_eq_some hfind, (by simpa using List.find?_some hfind),
      by rw [findNavColumn, hfind]⟩
  · intro hex
    cases h1 : t.cols.enum.find? (fun ic => navP1 ic.2) with
    | some jc =>
      exact ⟨jc, List.mem_of_find?_eq_some h1, Or.inl (by simpa using List.find?_some h1),
        by rw [findNavColumn, h1]⟩
    | none =>
      obtain ⟨jc, hfind⟩ := Option.isSome_iff_exists.mp (List.find?_isSome.mpr hex)
      exact ⟨jc, List.mem_of_find?_eq_some hfind, Or.inr (by simpa using List.find?_some hfind),
        by rw [findNavColumn, h1, hfind]⟩
  · intro hex
    cases h1 : t.cols.enum.find? (fun ic => navP1 ic.2) with
    | some jc =>
      exact ⟨jc, List.mem_of_find?_eq_some h1, Or.inl (by simpa using List.find?_some h1),
        by rw [findNavColumn, h1]⟩
    | none =>
      cases h2 : t.cols.enum.find? (fun ic => navSyn ic.2 && isNumericCol t ic.1) with
      | some jc =>
        exact ⟨jc, List.mem_of_find?_eq_some h2, Or.inr (Or.inl (by simpa using List.find?_some h2)),
          by rw [findNavColumn, h1, h2]⟩
      | none =>
        obtain ⟨jc, hfind⟩ := Option.isSome_iff_exists.mp (List.find?_isSome.mpr hex)
        exact ⟨jc, List.mem_of_find?_eq_some hfind,
          Or.inr (Or.inr (by simpa using List.find?_some hfind)),
          by rw [findNavColumn, h1, h2, hfind]⟩
  · intro hex
    cases h1 : t.cols.enum.find? (fun ic => navP1 ic.2) with
    | some jc => exact ⟨jc, List.mem_of_find?_eq_some h1, by rw [findNavColumn, h1]⟩
    | none =>
      cases h2 : t.cols.enum.find? (fun ic => navSyn ic.2 && isNumericCol t ic.1) with
      | some jc => exact ⟨jc, List.mem_of_find?_eq_some h2, by rw [findNavColumn, h1, h2]⟩
      | none =>
        cases h3 : t.cols.enum.find? (fun ic => valueSyn ic.2 && isNumericCol t ic.1) with
        | some jc =>
          exact ⟨jc, List.mem_of_find?_eq_some h3, by rw [findNavColumn, h1, h2, h3]⟩
        | none =>
          obtain ⟨jc, hfind⟩ := Option.isSome_iff_exists.mp (List.find?_isSome.mpr hex)
          exact ⟨jc, List.mem_of_find?_eq_some hfind,
            by rw [findNavColumn, h1, h2, h3, hfind]⟩
  · intro hall
    have h1 : t.cols.enum.find? (fun ic => navP1 ic.2) = none :=
      List.find?_eq_none.mpr (fun ic hic => by simp [(hall ic hic).1])
    have h2 : t.cols.enum.find? (fun ic => navSyn ic.2 && isNumericCol t ic.1) = none :=
      List.find?_eq_none.mpr (fun ic hic => by simp [(hall ic hic).2.1])
    have h3 : t.cols.enum.find? (fun ic => valueSyn ic.2 && isNumericCol t ic.1) = none :=
      List.find?_eq_none.mpr (fun ic hic => by simp [(hall ic hic).2.2.1])
    have h4 : t.cols.enum.find? (fun ic => isNumericCol t ic.1 && meanGT1000 t ic.1) = none :=
      List.find?_eq_none.mpr (fun ic hic => by simp [(hall ic hic).2.2.2])
    rw [findNavColumn, h1, h2, h3, h4]

/-- C3 witness: on a concrete table whose only column name carries both a
nav synonym and an ILS marker, priority 1 detects that column. -/
theorem nav_resolution_priority_witness :
    findNavColumn ⟨["NAV ILS"], [[.num 1]]⟩ = some "NAV ILS" := by
  obtain ⟨ic, hmem, hp, hfind⟩ :=
    (nav_resolution_priority ⟨["NAV ILS"], [[.num 1]]⟩).1 ⟨(0, "NAV ILS"), by decide, by decide⟩
  have henum : (⟨["NAV ILS"], [[.num 1]]⟩ : Table).cols.enum = [(0, "NAV ILS")] := by decide
  rw [henum] at hmem
  have hic : ic = (0, "NAV ILS") := by simpa using hmem
  rw [hic] at hfind
  exact hfind

/-! ## Claim C6: supporting lemmas -/

/-- Sum of a `filterMap` into ℚ equals the sum of the defaulted map. -/
theorem filterMap_sum_getD {α : Type} (l : List α) (g : α → Option ℚ) :
    (l.filterMap g).sum = (l.map (fun x => (g x).getD 0)).sum := by
  induction l with
  | nil => simp
  | cons a l ih =>
    cases hga : g a with
    | none => simp [List.filterMap_cons, hga, ih]
    | some q => simp [List.filterMap_cons, hga, ih]

/-- A ℚ-valued map-sum splits along a Boolean predicate. -/
theorem sum_map_filter_split {α : Type} (l : List α) (p : α → Bool) (f : α → ℚ) :
    ((l.filter p).map f).sum + ((l.filter (fun a => !p a)).map f).sum
      = (l.map f).sum := by
  induction l with
  | nil => simp
  | cons a l ih =>
    cases hp : p a
    · simp only [List.filter_cons, hp, Bool.not_false, if_false, if_true,
        List.map_cons, List.sum_cons, Bool.false_eq_true, ite_false, ite_true]
      rw [← ih]; ring
    · simp only [List.filter_cons, hp, Bool.not_true, if_false, if_true,
        List.map_cons, List.sum_cons, Bool.false_eq_true, ite_false, ite_true]
      rw [add_assoc, ih]

/-- Summing the per-key group sums over a duplicate-free key list that
covers every row's key equals the nav sum over all rows (the partition law
behind `groupby(cat)[nav].sum()`). -/
theorem sum_catSums (ci ni : Nat) :
    ∀ ks : List Value, ks.Nodup →
    ∀ rows : List (List Value), (∀ r ∈ rows, cellAt r ci ∈ ks) →
      (ks.map (fun k =>
        sumNavRows (rows.filter (fun r => cellAt r ci = k)) ni)).sum
        = sumNavRows rows ni := by
  intro ks
  induction ks with
  | nil =>
    intro _ rows hmem
    cases rows with
    | nil => simp [sumNavRows]
    | cons r rs => exact absurd (hmem r (by simp)) (by simp)
  | cons k ks ih =>
    intro hnd rows hmem
    have hk : k ∉ ks := (List.nodup_cons.mp hnd).1
    have hndtl : ks.Nodup := (List.nodup_cons.mp hnd).2
    have hstep : ∀ k' ∈ ks,
        rows.filter (fun r => cellAt r ci = k')
          = (rows.filter (fun r => !decide (cellAt r ci = k))).filter
              (fun r => cellAt r ci = k') := by
      intro k' hk'
      rw [List.filter_filter]
      apply List.filter_congr
      intro r _
      by_cases hc : cellAt r ci = k'
      · have hkk : k' ≠ k := fun h => hk (h ▸ hk')
        simp [hc, hkk]
      · simp [hc]
    have hmem' : ∀ r ∈ rows.filter (fun r => !decide (cellAt r ci = k)),
        cellAt r ci ∈ ks := by
      intro r hr
      obtain ⟨hrm, hcond⟩ := List.mem_filter.mp hr
      rcases List.mem_cons.mp (hmem r hrm) with h1 | h1
      · exfalso; simp [h1] at hcond
      · exact h1
    have hmapeq : (ks.map (fun k' =>
        sumNavRows (rows.filter (fun r => cellAt r ci = k')) ni))
        = ks.map (fun k' =>
            sumNavRows ((rows.filter (fun r => !decide (cellAt r ci = k))).filter
              (fun r => cellAt r ci = k')) ni) := by
      apply List.map_congr_left
      intro k' hk'
      rw [hstep k' hk']
    have hsplit :
        sumNavRows (rows.filter (fun r => cellAt r ci = k)) ni +
          sumNavRows (rows.filter (fun r => !decide (cellAt r ci = k))) ni
          = sumNavRows rows ni := by
      rw [sumNavRows, sumNavRows, sumNavRows, filterMap_sum_getD, filterMap_sum_getD,
        filterMap_sum_getD]
      exact sum_map_filter_split rows (fun r => decide (cellAt r ci = k)) _
    rw [List.map_cons, List.sum_cons, hmapeq,
      ih hndtl (rows.filter (fun r => !decide (cellAt r ci = k))) hmem', hsplit]

theorem perm_insertValAsc (v : Value) (l : List Value) :
    (insertValAsc v l).Perm (v :: l) := by
  induction l with
  | nil => exact List.Perm.refl _
  | cons w ws ih =>
    rw [insertValAsc]
    split
    · exact List.Perm.refl _
    · exact (ih.cons w).trans (List.Perm.swap v w ws)

theorem perm_sortValsAsc (l : List Value) : (sortValsAsc l).Perm l := by
  induction l with
  | nil => exact List.Perm.refl _
  | cons a l ih => exact (perm_insertValAsc a (sortValsAsc l)).trans (ih.cons a)

theorem perm_insertDescBySum (p : Value × ℚ) (l : List (Value × ℚ)) :
    (insertDescBySum p l).Perm (p :: l) := by
  induction l with
  | nil => exact List.Perm.refl _
  | cons w ws ih =>
    rw [insertDescBySum]
    split
    · exact List.Perm.refl _
    · exact (ih.cons w).trans (List.Perm.swap p w ws)

theorem perm_sortDescBySum (l : List (Value × ℚ)) : (sortDescBySum l).Perm l := by
  induction l with
  | nil => exact List.Perm.refl _
  | cons a l ih => exact (perm_insertDescBySum a (sortDescBySum l)).trans (ih.cons a)

/-- A skip-NaN sum of finite entries is the finite sum. -/
theorem sumSkipNaN_map_fin {α : Type} (f : α → ℚ) (l : List α) :
    sumSkipNaN (l.map (fun a => FloatV.fin (f a))) = .fin ((l.map f).sum) := by
  induction l with
  | nil => rfl
  | cons a l ih =>
    rw [List.map_cons, sumSkipNaN, List.foldr_cons]
    rw [sumSkipNaN] at ih
    rw [ih]
    simp

theorem sum_map_div_mul (l : List ℚ) (T : ℚ) :
    (l.map (fun s => s / T * 100)).sum = l.sum / T * 100 := by
  induction l with
  | nil => simp
  | cons a l ih => simp [ih, add_div, add_mul]

/-! ## Claim C6 -/

/-- C6: on any table with a strictly positive grand total in which no row
has a missing category value, the per-category percentages (category sum
over grand total, times 100) sum to exactly 100 — in particular within the
claimed 1e-6 tolerance. -/
theorem percent_sum_is_100 (t : Table) (ci ni : Nat)
    (h1 : 0 < totalNav t ni)
    (h2 : ∀ r ∈ t.rows, (cellAt r ci).isMissing = false) :
    sumSkipNaN (pctOfTotalList t ci ni) = .fin 100 := by
  have hT : totalNav t ni ≠ 0 := ne_of_gt h1
  have hperm : (groupKeys t ci).Perm ((t.rows.filterMap (fun r =>
      let v := cellAt r ci
      if v.isMissing then none else some v)).dedup) := perm_sortValsAsc _
  have hnd : (groupKeys t ci).Nodup := hperm.nodup_iff.mpr (List.nodup_dedup _)
  have hcover : ∀ r ∈ t.rows, cellAt r ci ∈ groupKeys t ci := by
    intro r hr
    apply hperm.mem_iff.mpr
    apply List.mem_dedup.mpr
    apply List.mem_filterMap.mpr
    exact ⟨r, hr, by simp [h2 r hr]⟩
  have hpart : ((groupKeys t ci).map (fun k => catSum t ci ni k)).sum = totalNav t ni := by
    have h := sum_catSums ci ni (groupKeys t ci) hnd t.rows hcover
    simpa [catSum, catRows, totalNav] using h
  have hfun : (fun p : Value × ℚ => mulF (divF p.2 (totalNav t ni)) 100)
      = fun p => FloatV.fin (p.2 / totalNav t ni * 100) := by
    funext p; simp [divF, mulF, hT]
  have hsum_fin : sumSkipNaN (pctOfTotalList t ci ni)
      = .fin (((navGroups t ci ni).map
          (fun p => p.2 / totalNav t ni * 100)).sum) := by
    rw [pctOfTotalList, hfun]
    exact sumSkipNaN_map_fin _ _
  rw [hsum_fin]
  have hpg : ((navGroups t ci ni).map (fun p => p.2 / totalNav t ni * 100)).sum
      = ((groupPairs t ci ni).map (fun p => p.2 / totalNav t ni * 100)).sum :=
    ((perm_sortDescBySum (groupPairs t ci ni)).map _).sum_eq
  have hcomp : (fun p : Value × ℚ => p.2 / totalNav t ni * 100)
      = (fun s : ℚ => s / totalNav t ni * 100) ∘ Prod.snd := rfl
  have hdist : ((groupPairs t ci ni).map (fun p => p.2 / totalNav t ni * 100)).sum
      = ((groupPairs t ci ni).map Prod.snd).sum / totalNav t ni * 100 := by
    rw [hcomp, ← List.map_map]
    exact sum_map_div_mul _ _
  have hsnd : (groupPairs t ci ni).map Prod.snd
      = (groupKeys t ci).map (fun k => catSum t ci ni k) := by
    rw [groupPairs, List.map_map]
    rfl
  rw [hpg, hdist, hsnd, hpart, div_self hT, one_mul]

/-- C6 witness: on a concrete one-row table with total 100, the percentage
list sums to exactly 100. -/
theorem percent_sum_witness :
    sumSkipNaN (pctOfTotalList ⟨["Geo", "NAV"], [[.str "Israel", .num 100]]⟩ 0 1)
      = .fin 100 :=
  percent_sum_is_100 _ 0 1
    (by norm_num [totalNav, sumNavRows, cellAt, Value.toNum,
      List.filterMap_cons, List.filterMap_nil])
    (by decide)

/-! ## Claim C10 -/

/-- C10 (counterexample): `load_data` on a sheet with one text cell in a
`Value`-named column returns a nonempty table whose single row and single
column are entirely missing — the coercion step (source lines 212-217)
runs after the dropna step (line 209) and reintroduces an all-missing row
and column, so the returned table is not free of them. -/
theorem load_data_all_missing_row_col :
    (load_data ["Value"] [[.str "abc"]]).rows = [[.missing]] ∧
    (load_data ["Value"] [[.str "abc"]]).cols = ["Value"] := by
  decide

/-- C10 (amended): immediately after the dropna step no all-missing row
and no all-missing column remains: every row of `dropEmpty t` has a
non-missing cell, and every column position of `dropEmpty t` has a row
with a non-missing cell there. (The later numeric coercion can
reintroduce all-missing rows and columns, as the counterexample shows.) -/
theorem dropna_no_all_missing (t : Table) :
    (∀ r ∈ (dropEmpty t).rows, ∃ v ∈ r, v.isMissing = false) ∧
    (∀ i, i < (dropEmpty t).cols.length →
      ∃ r ∈ (dropEmpty t).rows, (cellAt r i).isMissing = false) := by
  have hde : dropEmpty t =
      ⟨(t.cols.enum.filter (fun ic =>
          (t.rows.filter (rowNonEmptyB t.cols.length)).any
            (fun r => !(cellAt r ic.1).isMissing))).map Prod.snd,
        (t.rows.filter (rowNonEmptyB t.cols.length)).map (fun r =>
          (t.cols.enum.filter (fun ic =>
            (t.rows.filter (rowNonEmptyB t.cols.length)).any
              (fun r => !(cellAt r ic.1).isMissing))).map
            (fun ic => cellAt r ic.1))⟩ := rfl
  rw [hde]
  constructor
  · intro r' hr'
    obtain ⟨r, hr, rfl⟩ := List.mem_map.mp hr'
    obtain ⟨hrm, hcond⟩ := List.mem_filter.mp hr
    obtain ⟨j, hjmem, hjval⟩ := List.any_eq_true.mp hcond
    have hjlt : j < t.cols.length := List.mem_range.mp hjmem
    have hjenumlen : j < t.cols.enum.length := by simpa using hjlt
    have hjenum : (j, t.cols[j]) ∈ t.cols.enum := by
      have hget : t.cols.enum[j] = (j, t.cols[j]) := List.getElem_enum ..
      rw [← hget]
      exact List.getElem_mem hjenumlen
    have hjkp : (j, t.cols[j]) ∈ t.cols.enum.filter (fun ic =>
        (t.rows.filter (rowNonEmptyB t.cols.length)).any
          (fun r => !(cellAt r ic.1).isMissing)) := by
      apply List.mem_filter.mpr
      refine ⟨hjenum, ?_⟩
      apply List.any_eq_true.mpr
      exact ⟨r, hr, hjval⟩
    refine ⟨cellAt r j, List.mem_map.mpr ⟨(j, t.cols[j]), hjkp, rfl⟩, ?_⟩
    simpa using hjval
  · intro i hi
    have hiklen : i < (t.cols.enum.filter (fun ic =>
        (t.rows.filter (rowNonEmptyB t.cols.length)).any
          (fun r => !(cellAt r ic.1).isMissing))).length := by
      simpa using hi
    have hickp := List.getElem_mem hiklen
    have hpred := (List.mem_filter.mp hickp).2
    obtain ⟨r, hrmem, hrval⟩ := List.any_eq_true.mp hpred
    refine ⟨(t.cols.enum.filter (fun ic =>
        (t.rows.filter (rowNonEmptyB t.cols.length)).any
          (fun r => !(cellAt r ic.1).isMissing))).map (fun ic => cellAt r ic.1),
      List.mem_map.mpr ⟨r, hrmem, rfl⟩, ?_⟩
    have hcell : cellAt ((t.cols.enum.filter (fun ic =>
        (t.rows.filter (rowNonEmptyB t.cols.length)).any
          (fun r => !(cellAt r ic.1).isMissing))).map (fun ic => cellAt r ic.1)) i
        = cellAt r ((t.cols.enum.filter (fun ic =>
            (t.rows.filter (rowNonEmptyB t.cols.length)).any
              (fun r => !(cellAt r ic.1).isMissing)))[i]).1 := by
      rw [cellAt, List.getD_eq_getElem?_getD,
        List.getElem?_eq_getElem (by simpa using hiklen), List.getElem_map]
      simp
    rw [hcell]
    simpa using hrval

/-- C10 witness: the dropna guarantee at a concrete table, at column 0. -/
theorem dropna_no_all_missing_witness :
    (∃ v ∈ ([.num 1] : List Value), v.isMissing = false) ∧
    (∃ r ∈ (dropEmpty ⟨["A"], [[.num 1]]⟩).rows, (cellAt r 0).isMissing = false) :=
  ⟨(dropna_no_all_missing ⟨["A"], [[.num 1]]⟩).1 [.num 1] (by decide),
   (dropna_no_all_missing ⟨["A"], [[.num 1]]⟩).2 0 (by decide)⟩

end FundsDashboard
